import Mathlib

/-!
Verification development for the exosphere high-availability job scheduler.

The development shallowly embeds the scheduler election logic
(`src/classes/scheduler.py`, mirrored by `src/bin/scheduler.py`) and the job
readiness evaluator (`src/classes/job.py`).  MongoDB is the coordination
medium; its collections are embedded as explicit Lean values (a list of
scheduler records, a list of job documents) and each registry read that can
fail in the source is passed in as an `Except` value.  Python `datetime`
values become a calendar record compared through a day-number conversion,
`monthdelta` becomes calendar month arithmetic with day clamping, and
`timedelta` becomes fixed second counts.  Fallible Python code (statements
that can raise) is embedded in the `Except` monad; in particular, where the
source's call wiring makes an operation raise unconditionally - the
`@connect` client-injection argument mismatch on the decorated `Job`
methods, and the single-argument `update_many` call in reconciliation -
the embedding returns the corresponding exception value at the point the
source raises it.
-/

namespace Exosphere

/-! ## Calendar time model (Python `datetime`, `timedelta`, `monthdelta`) -/

/-- A Python `datetime.datetime` value (year, month 1..12, day 1..31,
hour, minute, second). -/
structure DateTime where
  year : Nat
  month : Nat
  day : Nat
  hour : Nat
  minute : Nat
  second : Nat
deriving Repr, DecidableEq

/-- Gregorian leap-year test. -/
def isLeap (y : Nat) : Bool :=
  (y % 4 == 0 && y % 100 != 0) || (y % 400 == 0)

/-- Number of days in a Gregorian month. -/
def daysInMonth (y m : Nat) : Nat :=
  if m == 2 then (if isLeap y then 29 else 28)
  else if m == 4 || m == 6 || m == 9 || m == 11 then 30
  else 31

/-- Day number of a Gregorian calendar date (days since 0000-03-01, the
standard civil-from-days construction, valid for years from 1 on).  Used to
linearise `datetime` values so that Python chronological comparison and
`timedelta` shifts become arithmetic on seconds. -/
def daysFromCivil (y m d : Nat) : Nat :=
  let y' := if m ≤ 2 then y - 1 else y
  let era := y' / 400
  let yoe := y' % 400
  let mp := if m > 2 then m - 3 else m + 9
  let doy := (153 * mp + 2) / 5 + (d - 1)
  let doe := yoe * 365 + yoe / 4 - yoe / 100 + doy
  era * 146097 + doe

/-- Seconds-since-reference linearisation of a `DateTime`; strictly monotone
in chronological order, so `a <= b` on Python datetimes is
`a.toSeconds ≤ b.toSeconds`. -/
def DateTime.toSeconds (t : DateTime) : Nat :=
  86400 * daysFromCivil t.year t.month t.day + 3600 * t.hour + 60 * t.minute + t.second

/-- Python `monthdelta` addition `t + monthdelta(k)`: advance the month with
year carry and clamp the day to the target month's length. -/
def DateTime.addMonths (t : DateTime) (k : Nat) : DateTime :=
  let tot := 12 * t.year + (t.month - 1) + k
  let y := tot / 12
  let m := tot % 12 + 1
  { t with year := y, month := m, day := min t.day (daysInMonth y m) }

/-- Python `monthdelta` subtraction `t - monthdelta(k)`: step the month back
with year borrow and clamp the day to the target month's length. -/
def DateTime.subMonths (t : DateTime) (k : Nat) : DateTime :=
  let tot := 12 * t.year + (t.month - 1) - k
  let y := tot / 12
  let m := tot % 12 + 1
  { t with year := y, month := m, day := min t.day (daysInMonth y m) }

/-- Seconds denoted by one trigger unit of the fixed-duration family
(`timedelta` keyword arguments). -/
def unitSeconds (u : String) : Nat :=
  if u == "weeks" then 604800
  else if u == "days" then 86400
  else if u == "hours" then 3600
  else if u == "minutes" then 60
  else 1

/-- The trigger units that `job.py` maps to `timedelta` keyword arguments. -/
def fixedUnits : List String :=
  ["days", "weeks", "hours", "minutes", "seconds"]

/-! ## Cron model (the `croniter` fragment the repository exercises)

`croniter` is an external library (not under `src/`).  The repository only
ever combines it with minute-step expressions of the shape `*/n * * * *`
(the spec's reference expression); for that family `croniter(expr, now)`
`.get_next(datetime)` is the earliest instant strictly after `now` lying on
a multiple of `n` minutes from the hour with seconds zero, which for `n`
dividing 60 is the next multiple of `60 * n` seconds.  Malformed expressions
are carried as a separate constructor so that `croniter.is_valid` has a
false case. -/

/-- A cron expression as the repository uses it: either the minute-step
family or a malformed string. -/
inductive CronExpr where
  | everyNMinutes (n : Nat)
  | malformed (s : String)
deriving Repr, DecidableEq

/-- `croniter.is_valid`: true exactly for well-formed expressions. -/
def croniterIsValid : CronExpr → Bool
  | .everyNMinutes n => n != 0
  | .malformed _ => false

/-- `croniter(cron, now).get_next(datetime)` in seconds, for the minute-step
family (the result on a malformed expression is never consulted because every
call site guards with `croniter.is_valid`). -/
def cronGetNext (c : CronExpr) (now : DateTime) : Nat :=
  match c with
  | .everyNMinutes n => (now.toSeconds / (60 * n) + 1) * (60 * n)
  | .malformed _ => 0

/-- A Python exception escaping an embedded operation. -/
inductive PyError where
  | attributeError
  | typeError
deriving Repr, DecidableEq

/-! ## Scheduler registry model (`src/classes/scheduler.py`)

A document of the `exosphere.schedulers` collection.  `score` is `Option`
because the source reads it with `.get('score', math.inf)`: a missing score
compares as positive infinity.  `primary` is read with
`.get('primary', False)`, so a missing flag and `false` coincide and the
field is a plain `Bool`. -/

/-- A scheduler registry record. -/
structure SchedRec where
  schedulerName : String
  score : Option ℚ
  primary : Bool
deriving Repr, DecidableEq

/-- `record.get('score', math.inf) < x`: a missing score is `math.inf` and
is never below `x`. -/
def scoreLt (s : Option ℚ) (x : ℚ) : Bool :=
  match s with
  | none => false
  | some v => v < x

/-- The record loop of `should_i_be_primary_scheduler`: return false at the
first record that is primary, or whose score is strictly below this
instance's score; reaching the end yields true. -/
def siPrimLoop (myScore : ℚ) : List SchedRec → Bool
  | [] => true
  | r :: rest =>
    if r.primary then false
    else if scoreLt r.score myScore then false
    else siPrimLoop myScore rest

/-- `Scheduler.should_i_be_primary_scheduler`: a failed registry read
resolves to false; otherwise scan the full scheduler collection with
`siPrimLoop` (an empty collection also yields true, matching the source's
fall-through `return True`). -/
def should_i_be_primary_scheduler (myScore : ℚ)
    (read : Except String (List SchedRec)) : Bool :=
  match read with
  | .error _ => false
  | .ok schedulers => siPrimLoop myScore schedulers

/-- `Scheduler.check_for_a_primary_schedulure`: a failed registry read
resolves to true (assume a primary exists); otherwise true exactly when the
filter `primary = true` is non-empty. -/
def check_for_a_primary_schedulure
    (read : Except String (List SchedRec)) : Bool :=
  match read with
  | .error _ => true
  | .ok regs => !(regs.filter (fun r => r.primary)).isEmpty

/-- pymongo `update({'schedulerName': n}, {'$set': {'primary': True}})`:
set the primary flag on the first record keyed by `n`. -/
def setPrimaryFirst (n : String) : List SchedRec → List SchedRec
  | [] => []
  | r :: rest =>
    if r.schedulerName == n then { r with primary := true } :: rest
    else r :: setPrimaryFirst n rest

/-- `Scheduler.set_scheduler_to_primary`: claim the primary flag on this
instance's own record. -/
def set_scheduler_to_primary (myName : String) (regs : List SchedRec) :
    List SchedRec :=
  setPrimaryFirst myName regs

/-- `Scheduler.ensure_there_is_only_one_primary_scheduler`: list the
primary-flagged records; with at most one the function returns without
touching the registry.  With more than one it calls
`update_many({'$set': {'primary': False}})` - pymongo's `update_many`
requires the update document as a separate second argument, so this
single-argument call raises `TypeError` before any record is modified, and
the demote-everyone / zero-floor re-election sequence written below it in
the source is dead code.  The multi-primary branch therefore raises and
leaves every primary flag as it was. -/
def ensure_there_is_only_one_primary_scheduler (regs : List SchedRec) :
    Except PyError (List SchedRec) :=
  if (regs.filter (fun r => r.primary)).length > 1 then
    .error .typeError
  else .ok regs

/-- `Scheduler.am_i_still_primary_scheduler`: re-read this instance's own
record and report its primary flag; an absent record reads as false. -/
def am_i_still_primary_scheduler (myName : String) (regs : List SchedRec) :
    Bool :=
  match regs.filter (fun r => r.schedulerName == myName) with
  | [] => false
  | r :: _ => r.primary

/-- `Scheduler.get_request_speed`: a single probe.  `requests.get` raises on
network failure and otherwise yields the elapsed duration; the function
installs no handling of its own, so the outcome passes through unchanged. -/
def get_request_speed (probeOutcome : Except String ℚ) : Except String ℚ :=
  probeOutcome

/-- `Scheduler.generate_scheduler_score`: sum three probes and scale by 100.
The `try` block logs a failed probe and re-raises the same exception, so the
first failing probe's error propagates. -/
def generate_scheduler_score (p1 p2 p3 : Except String ℚ) :
    Except String ℚ := do
  let a ← get_request_speed p1
  let b ← get_request_speed p2
  let c ← get_request_speed p3
  pure ((a + b + c) * 100)

/-- The claim-then-reconcile sequence both claiming branches of
`high_availability_scheduler` run: this instance claims the primary flag
and then reconciliation runs over the resulting registry (raising if
reconciliation enters its multi-primary branch). -/
def haReconciled (myName : String) (regs : List SchedRec) :
    Except PyError (List SchedRec) :=
  ensure_there_is_only_one_primary_scheduler
    (set_scheduler_to_primary myName regs)

/-- One iteration of the `high_availability_scheduler` loop body, on a
registry whose reads succeed.  The returned `Bool` records whether control
reached `self.schedule()` (the instance began scheduling jobs); the
returned registry is the state the iteration left behind.  An exception
raised by reconciliation propagates out of the loop uncaught. -/
def haIteration (myName : String) (myScore : ℚ) (regs : List SchedRec) :
    Except PyError (Bool × List SchedRec) :=
  if check_for_a_primary_schedulure (.ok regs) = false then do
    let r2 ← haReconciled myName regs
    .ok (am_i_still_primary_scheduler myName r2, r2)
  else if should_i_be_primary_scheduler myScore (.ok regs) then do
    let r2 ← haReconciled myName regs
    .ok (am_i_still_primary_scheduler myName r2, r2)
  else .ok (false, regs)

/-! ## Job evaluator model (`src/classes/job.py`)

The `connect('MONGO')` decorator calls the wrapped function as
`f(client, *args)`: the injected database client is the FIRST positional
argument.  `Scheduler.open_mongo_connection` is declared `(client, self)`
to match, but the decorated `Job` methods are not: the client lands in
their `self` slot (or overflows their parameter list), so both decorated
methods raise before their bodies can run - see
`pull_job_info_from_mongo` and `check_if_job_is_stale` below.  The
undecorated methods are embedded with the catalog as an explicit
`List JobDoc` argument and exceptions as `PyError` values in the `Except`
monad. -/

/-- A trigger descriptor `{'unit': ..., 'value': ...}`; both fields are read
with `.get`, so either may be absent. -/
structure Trigger where
  unit : Option String
  value : Option Nat
deriving Repr, DecidableEq

/-- A database dependency descriptor; all four fields are read with `.get`,
so any may be absent. -/
structure DbDep where
  dbName : Option String
  schema : Option String
  table : Option String
  column : Option String
deriving Repr, DecidableEq

/-- A document of the `exosphere.jobs` collection.  `jobDeps` lists the
`jobName` field of each entry of `dependencies['jobs']` (itself read with
`.get`, hence `Option`); `dbDeps` is `dependencies['database']`.
`lastReportDate` is the stored timestamp; `check_if_job_is_stale` reads it
as a datetime and `get_job_next_report_date` parses only its
year-month-day part. -/
structure JobDoc where
  jobName : String
  cron : Option CronExpr
  trigger : Option Trigger
  jobDeps : List (Option String)
  dbDeps : List DbDep
  lastReportDate : Option DateTime
deriving Repr, DecidableEq

/-- `Job.pull_job_info_from_mongo`: declared `(self, client, job_name)`
under `@connect('MONGO')`, but the decorator calls `f(client, *args)`, so
the injected MongoClient binds to `self` and the `Job` instance to
`client`.  The first statement, `client.exosphere.jobs.find(...)`, then
accesses the attribute `exosphere` on the `Job` instance and raises
`AttributeError` on every call, whether or not the named job exists; the
found-record return and the missing-record log line are both
unreachable. -/
def pull_job_info_from_mongo (_catalog : List JobDoc)
    (_jobName : Option String) : Except PyError JobDoc :=
  .error .attributeError

/-- `Job.check_if_job_is_stale`: declared `(self, job_name)` under
`@connect('MONGO')`.  The decorator calls `f(client, self, job_name)` -
three positional arguments for a two-parameter function - so every
invocation raises `TypeError` before the body runs; the cron/trigger
staleness logic written in the body (including its months and
fixed-duration comparisons) is unreachable. -/
def check_if_job_is_stale (_catalog : List JobDoc) (_now : DateTime)
    (_jobName : Option String) : Except PyError Bool :=
  .error .typeError

/-- `Job.cron_job_is_ready_for_scheduling`: with a valid cron expression the
job is ready only when the next fire time is strictly more than five minutes
in the future and the job is itself stale (the staleness check is only
evaluated when the five-minute test passes, mirroring Python's
short-circuit `and`).  An absent or invalid cron expression logs and yields
false. -/
def cron_job_is_ready_for_scheduling (catalog : List JobDoc)
    (now : DateTime) (selfName : String) (selfCron : Option CronExpr) :
    Except PyError Bool :=
  match selfCron with
  | none => .ok false
  | some c =>
    if croniterIsValid c then
      if now.toSeconds + 300 < cronGetNext c now then do
        let stale ← check_if_job_is_stale catalog now (some selfName)
        if stale then .ok true else .ok false
      else .ok false
    else .ok false

/-- `Job.get_job_next_report_date`: defined only for trigger jobs with a
last report date; the stored date string is parsed with format `%Y-%m-%d`,
so only the year-month-day part survives and the time of day is midnight.
The months unit adds a `monthdelta`, the fixed units add a `timedelta`
(in either branch a missing trigger value raises `TypeError` in the
arithmetic, because the preceding missing-value check only logs), and an
unsupported or missing unit logs and returns `None`.  The resulting datetime
is consumed opaquely downstream and is represented by its second count. -/
def get_job_next_report_date (self : JobDoc) :
    Except PyError (Option Nat) :=
  match self.trigger with
  | none => .ok none
  | some trig =>
    match self.lastReportDate with
    | none => .ok none
    | some stored =>
      let lrd : DateTime := ⟨stored.year, stored.month, stored.day, 0, 0, 0⟩
      match trig.unit with
      | some u =>
        if u == "months" then
          match trig.value with
          | some v => .ok (some ((lrd.addMonths v).toSeconds))
          | none => .error .typeError
        else if fixedUnits.contains u then
          match trig.value with
          | some v => .ok (some (lrd.toSeconds + unitSeconds u * v))
          | none => .error .typeError
        else .ok none
      | none => .ok none

/-- `Job.check_if_database_is_ready`: all four descriptor fields and the
probe value must be truthy (present, and for strings non-empty) before the
external existence predicate is consulted; otherwise the check is false.
The external `util.value_exists_in_db` collaborator is the function
argument `existsFn`. -/
def check_if_database_is_ready
    (existsFn : String → String → String → String → Nat → Bool)
    (database : DbDep) (value : Option Nat) : Bool :=
  match database.dbName, database.schema, database.table,
      database.column, value with
  | some db, some schema, some table, some column, some v =>
    if !db.isEmpty && !schema.isEmpty && !table.isEmpty && !column.isEmpty
    then existsFn db schema table column v
    else false
  | _, _, _, _, _ => false

/-- The job-dependency loop of `check_job_dependencies`: true as soon as
some dependency is stale (each staleness check may itself raise). -/
def anyDepStale (catalog : List JobDoc) (now : DateTime) :
    List (Option String) → Except PyError Bool
  | [] => .ok false
  | j :: rest => do
    let stale ← check_if_job_is_stale catalog now j
    if stale then .ok true else anyDepStale catalog now rest

/-- The database-dependency loop of `check_job_dependencies`: every
descriptor must pass `check_if_database_is_ready` against the job's next
report date. -/
def allDbReady (existsFn : String → String → String → String → Nat → Bool)
    (value : Option Nat) : List DbDep → Bool
  | [] => true
  | d :: rest =>
    check_if_database_is_ready existsFn d value && allDbReady existsFn value rest

/-- `Job.check_job_dependencies`: false at the first stale job dependency;
then, when database dependencies exist, compute the job's next report date
once and require every database dependency to be ready against it. -/
def check_job_dependencies (catalog : List JobDoc) (now : DateTime)
    (existsFn : String → String → String → String → Nat → Bool)
    (self : JobDoc) : Except PyError Bool := do
  let someStale ← anyDepStale catalog now self.jobDeps
  if someStale then .ok false
  else if self.dbDeps.isEmpty then .ok true
  else do
    let nextReportDate ← get_job_next_report_date self
    .ok (allDbReady existsFn nextReportDate self.dbDeps)

/-- `Job.trigger_job_is_ready_for_scheduling`: the job itself must be stale
and its dependencies satisfied (dependencies are only checked when the job
is stale, mirroring Python's short-circuit `and`). -/
def trigger_job_is_ready_for_scheduling (catalog : List JobDoc)
    (now : DateTime)
    (existsFn : String → String → String → String → Nat → Bool)
    (self : JobDoc) : Except PyError Bool := do
  let stale ← check_if_job_is_stale catalog now (some self.jobName)
  if stale then do
    let deps ← check_job_dependencies catalog now existsFn self
    if deps then .ok true else .ok false
  else .ok false

/-- `Job.check_requirements_and_schedule`: evaluate the cron path (publish
with a 300 second delay) and the trigger path (publish with no delay)
independently; the result lists the publish calls made. -/
def check_requirements_and_schedule (catalog : List JobDoc)
    (now : DateTime)
    (existsFn : String → String → String → String → Nat → Bool)
    (self : JobDoc) : Except PyError (List (String × Nat)) := do
  let cronPublishes ←
    match self.cron with
    | some _ => do
      let ready ← cron_job_is_ready_for_scheduling catalog now
        self.jobName self.cron
      pure (if ready then [(self.jobName, 300)] else [])
    | none => pure ([] : List (String × Nat))
  match self.trigger with
  | some _ => do
    let ready ← trigger_job_is_ready_for_scheduling catalog now existsFn self
    .ok (cronPublishes ++ (if ready then [(self.jobName, 0)] else []))
  | none => .ok cronPublishes

/-! ## Helper lemmas -/

/-- A boolean outcome test on probe and score computations. -/
def exceptIsOk : Except String ℚ → Bool
  | .ok _ => true
  | .error _ => false

instance {ε α : Type} [DecidableEq ε] [DecidableEq α] :
    DecidableEq (Except ε α) := fun x y =>
  match x, y with
  | .ok a, .ok b =>
    if h : a = b then .isTrue (by rw [h])
    else .isFalse (fun hc => h (Except.ok.inj hc))
  | .error a, .error b =>
    if h : a = b then .isTrue (by rw [h])
    else .isFalse (fun hc => h (Except.error.inj hc))
  | .ok _, .error _ => .isFalse (fun hc => Except.noConfusion hc)
  | .error _, .ok _ => .isFalse (fun hc => Except.noConfusion hc)

/-- A database-readiness check against an absent probe value is false. -/
theorem check_if_database_is_ready_none
    (existsFn : String → String → String → String → Nat → Bool)
    (d : DbDep) : check_if_database_is_ready existsFn d none = false := by
  obtain ⟨db, sc, tb, col⟩ := d
  cases db <;> cases sc <;> cases tb <;> cases col <;> rfl

/-- A positive self-read names a record of the registry that carries this
instance's identity and the primary flag. -/
theorem am_i_still_mem (n : String) (regs : List SchedRec)
    (h : am_i_still_primary_scheduler n regs = true) :
    ∃ r ∈ regs, r.schedulerName = n ∧ r.primary = true := by
  unfold am_i_still_primary_scheduler at h
  cases hf : regs.filter (fun r => r.schedulerName == n) with
  | nil => rw [hf] at h; exact absurd h (by simp)
  | cons r rest =>
    rw [hf] at h
    have hr : r ∈ regs.filter (fun r => r.schedulerName == n) := by
      rw [hf]; exact List.mem_cons_self r rest
    rw [List.mem_filter] at hr
    exact ⟨r, hr.1, by simpa using hr.2, h⟩

/-- The contention loop accepts exactly the registries in which every record
is non-primary and no record scores strictly below this instance. -/
theorem siPrimLoop_iff (myScore : ℚ) (l : List SchedRec) :
    siPrimLoop myScore l = true ↔
      ((∀ r ∈ l, r.primary = false) ∧
       (∀ r ∈ l, scoreLt r.score myScore = false)) := by
  induction l with
  | nil => simp [siPrimLoop]
  | cons r rest ih =>
    unfold siPrimLoop
    by_cases hp : r.primary
    · simp [hp]
    · by_cases hs : scoreLt r.score myScore
      · simp [hp, hs]
      · simp only [Bool.not_eq_true] at hp hs
        simp [hp, hs, ih, List.forall_mem_cons, and_assoc, and_left_comm]

/-! ## Claims -/

/-- C1.  With two primary records of scores 100 and 200, one reconciliation
run raises `TypeError` at the single-argument `update_many` call before
modifying any record: no flag is cleared and no winner is elected, so the
registry keeps both primary records instead of exactly the minimum-score
previously-primary one ("a") that the claim requires. -/
theorem c1_reconciliation_raises_typeerror :
    ensure_there_is_only_one_primary_scheduler
        [⟨"a", some 100, true⟩, ⟨"b", some 200, true⟩]
      = .error .typeError ∧
    (([⟨"a", some 100, true⟩, ⟨"b", some 200, true⟩] :
        List SchedRec).filter (fun r => r.primary)).length = 2 := by
  decide

/-- C2.  The decorated evaluator methods raise on every invocation:
`pull_job_info_from_mongo` raises `AttributeError` at `client.exosphere`
even when the named record exists (the injected client binds to `self` and
the `Job` instance to `client`), `check_if_job_is_stale` raises `TypeError`
(three positional arguments for its two parameters), and the `TypeError`
propagates out of `check_job_dependencies` through the job-dependency
loop - no check resolves to not-ready as the claim requires. -/
theorem c2_evaluator_methods_raise :
    pull_job_info_from_mongo
        [⟨"j", none, none, [], [], none⟩] (some "j")
      = .error .attributeError ∧
    check_if_job_is_stale [⟨"j", none, none, [], [], none⟩]
        ⟨2024, 6, 1, 12, 0, 0⟩ (some "j") = .error .typeError ∧
    check_job_dependencies [] ⟨2024, 6, 1, 12, 0, 0⟩
        (fun _ _ _ _ _ => true)
        ⟨"j", none, some ⟨some "days", some 1⟩, [some "dep"], [],
          some ⟨2024, 6, 1, 0, 0, 0⟩⟩
      = .error .typeError := by
  decide

/-- C3 counterexample.  The claim's first scenario: cron `*/5 * * * *` with
a last report date two hours before now.  The source requires the next fire
time to be strictly more than five minutes away, which never holds for a
five-minute cron, so the function yields false where the claim says true. -/
theorem c3_counterexample :
    cron_job_is_ready_for_scheduling
        [⟨"cronjob", some (.everyNMinutes 5), none, [], [],
          some ⟨2024, 6, 1, 10, 0, 0⟩⟩]
        ⟨2024, 6, 1, 12, 0, 0⟩ "cronjob" (some (.everyNMinutes 5))
      ≠ .ok true := by
  decide

/-- C3 amended.  For the cron expression `*/5 * * * *` the readiness check
returns false at every instant and for every catalog (hence for both of the
claim's last-report-date scenarios): the next computed fire time is never
more than the five-minute look-ahead window in the future. -/
theorem c3_amended_every5_cron_never_ready (catalog : List JobDoc)
    (now : DateTime) (selfName : String) :
    cron_job_is_ready_for_scheduling catalog now selfName
      (some (.everyNMinutes 5)) = .ok false := by
  have hcond : ¬ (now.toSeconds + 300 < cronGetNext (.everyNMinutes 5) now) := by
    simp only [cronGetNext]
    omega
  simp only [cron_job_is_ready_for_scheduling]
  rw [if_pos (show croniterIsValid (.everyNMinutes 5) = true from rfl)]
  rw [if_neg hcond]

/-- C4 counterexample.  A failed first probe: score generation re-raises
the probe's exception rather than returning a zero duration. -/
theorem c4_counterexample :
    generate_scheduler_score (.error "ConnectionError") (.ok 1) (.ok 2)
      = .error "ConnectionError" ∧
    generate_scheduler_score (.error "ConnectionError") (.ok 1) (.ok 2)
      ≠ .ok 0 := by
  decide

/-- C4 amended.  Whenever any of the three probes fails, score generation
propagates an error and returns no duration at all (zero included): a
failed probe crashes score generation instead of being converted to a zero
duration. -/
theorem c4_amended_probe_failure_propagates (p1 p2 p3 : Except String ℚ)
    (h : exceptIsOk p1 = false ∨ exceptIsOk p2 = false ∨
      exceptIsOk p3 = false) :
    exceptIsOk (generate_scheduler_score p1 p2 p3) = false ∧
    ∀ q : ℚ, generate_scheduler_score p1 p2 p3 ≠ .ok q := by
  cases p1 <;> cases p2 <;> cases p3 <;>
    simp_all [generate_scheduler_score, get_request_speed, exceptIsOk,
      Bind.bind, Except.bind, pure, Except.pure]

/-- C4 witness: the amended statement at a concrete failed probe. -/
theorem c4_witness :
    (exceptIsOk (.error "timeout") = false ∨
      exceptIsOk (Except.ok (1 : ℚ)) = false ∨
      exceptIsOk (Except.ok (2 : ℚ)) = false) ∧
    (exceptIsOk (generate_scheduler_score (.error "timeout") (.ok 1) (.ok 2))
        = false ∧
     ∀ q : ℚ, generate_scheduler_score (.error "timeout") (.ok 1) (.ok 2)
        ≠ .ok q) :=
  ⟨Or.inl rfl, c4_amended_probe_failure_propagates _ _ _ (Or.inl rfl)⟩

/-- C5 counterexample.  This instance (score 5) and another non-primary
record with the same score 5: the instance decides to contend even though
its score is not strictly lower than every known non-primary score. -/
theorem c5_counterexample :
    should_i_be_primary_scheduler 5
        (.ok [⟨"me", some 5, false⟩, ⟨"other", some 5, false⟩]) = true ∧
    ∃ r ∈ [(⟨"me", some 5, false⟩ : SchedRec), ⟨"other", some 5, false⟩],
      r.primary = false ∧ r.score = some 5 ∧ ¬ ((5 : ℚ) < 5) :=
  ⟨by decide, ⟨"other", some 5, false⟩, by simp, rfl, rfl, by norm_num⟩

/-- C5 amended.  On a successful registry read the instance decides to
contend exactly when no record is marked primary and no known record
scores strictly below this instance's own score (a score tie does not
prevent contending); in particular any record already marked primary makes
the decision false. -/
theorem c5_contention_rule (myScore : ℚ) (regs : List SchedRec) :
    should_i_be_primary_scheduler myScore (.ok regs) = true ↔
      ((∀ r ∈ regs, r.primary = false) ∧
       (∀ r ∈ regs, scoreLt r.score myScore = false)) :=
  siPrimLoop_iff myScore regs

/-- C7.  A failed registry read during the dormant-state check resolves to
true: a primary is assumed to exist, so the instance never contends because
of a read failure. -/
theorem c7_read_failure_assumes_primary (msg : String) :
    check_for_a_primary_schedulure (.error msg) = true := rfl

/-- C9 counterexample.  A registry with two primary records (scores 7 and
9): the first reconciliation run raises `TypeError` at the single-argument
`update_many` call, modifying nothing, so the registry retains its two
primary records and no run yields a single primary at all. -/
theorem c9_counterexample :
    ensure_there_is_only_one_primary_scheduler
        [⟨"p", some 7, true⟩, ⟨"q", some 9, true⟩, ⟨"z", some 3, false⟩]
      = .error .typeError ∧
    (([⟨"p", some 7, true⟩, ⟨"q", some 9, true⟩, ⟨"z", some 3, false⟩] :
        List SchedRec).filter (fun r => r.primary)).length = 2 := by
  decide

/-- C9 amended.  Running reconciliation twice in a row with no score
changes is indistinguishable from running it once: when the first run
returns, the registry has at most one primary and the second run changes
nothing.  But no run yields a single primary out of a multi-primary state:
with more than one primary record every run raises `TypeError` at the
malformed `update_many` call and the multiple primaries remain in place. -/
theorem c9_reconciliation_second_run_noop (regs : List SchedRec) :
    (ensure_there_is_only_one_primary_scheduler regs).bind
        ensure_there_is_only_one_primary_scheduler
      = ensure_there_is_only_one_primary_scheduler regs ∧
    ((regs.filter (fun r => r.primary)).length > 1 →
      ensure_there_is_only_one_primary_scheduler regs
        = .error .typeError) := by
  constructor
  · by_cases h : (regs.filter (fun r => r.primary)).length > 1
    · simp [ensure_there_is_only_one_primary_scheduler, h, Except.bind]
    · simp [ensure_there_is_only_one_primary_scheduler, h, Except.bind]
  · intro h
    simp [ensure_there_is_only_one_primary_scheduler, h]

/-- C9 witness: the multi-primary part of the amended statement at a
concrete two-primary registry. -/
theorem c9_witness :
    (([⟨"u", some 4, true⟩, ⟨"w", some 6, true⟩] :
        List SchedRec).filter (fun r => r.primary)).length > 1 ∧
    ensure_there_is_only_one_primary_scheduler
        [⟨"u", some 4, true⟩, ⟨"w", some 6, true⟩]
      = .error .typeError :=
  ⟨by decide,
   (c9_reconciliation_second_run_noop
      [⟨"u", some 4, true⟩, ⟨"w", some 6, true⟩]).2 (by decide)⟩

/-- C6 counterexample.  The claim's own stale example - trigger unit
`days`, value 1, last report date two days before now - does not return
true: the call raises `TypeError` at the decorator boundary (the injected
client is a third positional argument the two-parameter method cannot
accept), so the staleness predicate the claim describes is never
computed. -/
theorem c6_counterexample :
    check_if_job_is_stale
        [⟨"t", none, some ⟨some "days", some 1⟩, [], [],
          some ⟨2024, 6, 1, 12, 0, 0⟩⟩]
        ⟨2024, 6, 3, 12, 0, 0⟩ (some "t") = .error .typeError ∧
    check_if_job_is_stale
        [⟨"t", none, some ⟨some "days", some 1⟩, [], [],
          some ⟨2024, 6, 1, 12, 0, 0⟩⟩]
        ⟨2024, 6, 3, 12, 0, 0⟩ (some "t") ≠ .ok true := by
  decide

/-- C6 amended.  `check_if_job_is_stale` raises `TypeError` on every
invocation - the `@connect('MONGO')` decorator passes the injected client
as an extra positional argument to the two-parameter method - so no
trigger job, for any unit or last report date, is ever reported stale or
fresh; both of the claim's days examples raise instead of returning true
and false.  (The months comparison written in the unreachable body is
additionally `lastReportDate <= now - monthdelta(value)`, not the claim's
`now >= lastReportDate + interval`.) -/
theorem c6_stale_always_raises (catalog : List JobDoc) (now : DateTime)
    (jobName : Option String) :
    check_if_job_is_stale catalog now jobName = .error .typeError := rfl

/-- C8.  Whenever an iteration of the high-availability loop reaches
`self.schedule()` - that is, the iteration returns normally with the
scheduling flag set - the post-reconciliation self-read returned true, and
the registry the iteration leaves behind contains a record with this
instance's identity still marked primary: scheduling never starts on the
strength of the pre-reconciliation write alone. -/
theorem c8_primary_self_confirmation (myName : String) (myScore : ℚ)
    (regs regs2 : List SchedRec)
    (h : haIteration myName myScore regs = .ok (true, regs2)) :
    am_i_still_primary_scheduler myName regs2 = true ∧
    ∃ r ∈ regs2, r.schedulerName = myName ∧ r.primary = true := by
  unfold haIteration at h
  split_ifs at h with h1 h2
  · cases hr : haReconciled myName regs with
    | error e =>
      rw [hr] at h
      exact absurd h (by simp [Bind.bind, Except.bind])
    | ok r2 =>
      rw [hr] at h
      simp only [Bind.bind, Except.bind, Except.ok.injEq, Prod.mk.injEq] at h
      obtain ⟨hA, hB⟩ := h
      subst hB
      exact ⟨hA, am_i_still_mem _ _ hA⟩
  · cases hr : haReconciled myName regs with
    | error e =>
      rw [hr] at h
      exact absurd h (by simp [Bind.bind, Except.bind])
    | ok r2 =>
      rw [hr] at h
      simp only [Bind.bind, Except.bind, Except.ok.injEq, Prod.mk.injEq] at h
      obtain ⟨hA, hB⟩ := h
      subst hB
      exact ⟨hA, am_i_still_mem _ _ hA⟩
  · exact absurd h (by simp)

/-- C8 witness: a singleton registry in which this instance claims primary,
survives reconciliation, and schedules. -/
theorem c8_witness :
    haIteration "a" 1 [⟨"a", some 1, false⟩]
      = .ok (true, [⟨"a", some 1, true⟩]) ∧
    (am_i_still_primary_scheduler "a" [⟨"a", some 1, true⟩] = true ∧
     ∃ r ∈ [(⟨"a", some 1, true⟩ : SchedRec)],
       r.schedulerName = "a" ∧ r.primary = true) :=
  ⟨by decide,
   c8_primary_self_confirmation "a" 1 [⟨"a", some 1, false⟩]
     [⟨"a", some 1, true⟩] (by decide)⟩

/-- C10.  A database dependency with any of dbName, schema, table or column
absent, or probed with an absent value, is not ready and raises nothing;
consequently a job whose database dependencies are non-empty but whose next
report date computes to none is never judged to have satisfied its
dependencies. -/
theorem c10_db_dependency_guard :
    (∀ (existsFn : String → String → String → String → Nat → Bool)
        (d : DbDep) (v : Option Nat),
      (d.dbName = none ∨ d.schema = none ∨ d.table = none ∨
        d.column = none ∨ v = none) →
      check_if_database_is_ready existsFn d v = false) ∧
    (∀ (existsFn : String → String → String → String → Nat → Bool)
        (catalog : List JobDoc) (now : DateTime) (self : JobDoc),
      self.dbDeps ≠ [] → get_job_next_report_date self = .ok none →
      check_job_dependencies catalog now existsFn self ≠ .ok true) := by
  constructor
  · intro existsFn d v h
    obtain ⟨db, sc, tb, col⟩ := d
    cases db <;> cases sc <;> cases tb <;> cases col <;> cases v <;>
      simp_all [check_if_database_is_ready]
  · intro existsFn catalog now self hdb hnrd
    unfold check_job_dependencies
    cases hs : anyDepStale catalog now self.jobDeps with
    | error e => simp [hs, Bind.bind, Except.bind]
    | ok b =>
      cases b with
      | true => simp [hs, Bind.bind, Except.bind]
      | false =>
        simp only [hs, Bind.bind, Except.bind, hnrd, Bool.false_eq_true,
          if_false]
        cases hd : self.dbDeps with
        | nil => exact absurd hd hdb
        | cons d rest =>
          simp [hd, allDbReady, check_if_database_is_ready_none]

/-- C10 witness: a dependency descriptor with an absent database name is
not ready. -/
theorem c10_witness :
    ((⟨none, some "s", some "t", some "c"⟩ : DbDep).dbName = none ∨
     (⟨none, some "s", some "t", some "c"⟩ : DbDep).schema = none ∨
     (⟨none, some "s", some "t", some "c"⟩ : DbDep).table = none ∨
     (⟨none, some "s", some "t", some "c"⟩ : DbDep).column = none ∨
     (some 5 : Option Nat) = none) ∧
    check_if_database_is_ready (fun _ _ _ _ _ => true)
      ⟨none, some "s", some "t", some "c"⟩ (some 5) = false :=
  ⟨Or.inl rfl,
   c10_db_dependency_guard.1 (fun _ _ _ _ _ => true)
     ⟨none, some "s", some "t", some "c"⟩ (some 5) (Or.inl rfl)⟩

end Exosphere
